import Mathlib

/-!
Verification of the idle-gateway detection engine in
`idle-gateways-detector/idle_gw.py`.

The Python code is shallowly embedded: the flat pandas sample table becomes a
`List MetricSample`, timestamps become integer epoch seconds, numeric metric
statistics become exact rationals, and the effectful CloudWatch calls become
function parameters (`fetch` for `get_metric_statistics`, a boolean for the
`list_metrics` existence probe).  Python `round(x, 2)` is modelled by `round2`
below with the Mathlib `round` (ties round up instead of to even; no claim in
this development depends on tie behaviour).
-/

unseal Rat.mul Rat.inv Rat.add Rat.sub

namespace IdleGW

/-- NAT metric catalog, from `NAT_METRICS` in the source. -/
def NAT_METRICS : List String :=
  ["BytesInFromDestination", "BytesInFromSource", "BytesOutToDestination",
   "BytesOutToSource", "PacketsInFromDestination", "PacketsInFromSource",
   "PacketsOutToDestination", "PacketsOutToSource", "ConnectionAttemptCount",
   "ConnectionEstablishedCount", "ErrorPortAllocation", "IdleTimeoutCount",
   "ActiveConnectionCount", "ConnectionEstablishedRate"]

/-- IGW metric catalog, from `IGW_METRICS` in the source. -/
def IGW_METRICS : List String :=
  ["BytesInFromDestination", "BytesOutToDestination", "PacketsInFromDestination",
   "PacketsOutToDestination", "BytesDropCountBlackholeIPv4", "BytesDropCountNoRouteIPv4",
   "PacketsDropCountBlackholeIPv4", "PacketsDropCountNoRouteIPv4"]

/-- PERIOD_SECONDS = 21600 (6 hours), as a rational for the rate arithmetic. -/
def periodSecondsQ : ℚ := 21600

/-- The 30-day chunk size of `get_metric_data_chunked`, in seconds. -/
def chunkSizeSeconds : Int := 2592000

/-- One row of the flat sample table built by `collect_metrics` (the columns
the analysis reads: gateway type, gateway id, metric name, timestamp and the
four statistics). -/
structure MetricSample where
  gatewayType : String
  gatewayId : String
  metric : String
  ts : Int
  sum : ℚ
  average : ℚ
  maximum : ℚ
  minimum : ℚ
deriving DecidableEq, Repr

/-- One raw CloudWatch datapoint as returned by `get_metric_statistics`; the
statistics are optional because the source reads them with `dp.get(key, 0)`. -/
structure Datapoint where
  ts : Int
  sumStat : Option ℚ
  avgStat : Option ℚ
  maxStat : Option ℚ
  minStat : Option ℚ
deriving DecidableEq, Repr

/-- Fuel-driven unfolding of the while loop in `get_metric_data_chunked`:
while chunk_start < end_time, emit [chunk_start, min (chunk_start + 30d) end)
and continue from the chunk end. -/
def chunkGo : Nat → Int → Int → List (Int × Int)
  | 0, _, _ => []
  | fuel + 1, s, e =>
    if s < e then
      (s, min (s + chunkSizeSeconds) e) :: chunkGo fuel (min (s + chunkSizeSeconds) e) e
    else []

/-- The sub-interval sequence visited by `get_metric_data_chunked` for the
range [s, e).  The loop advances by at least one second per iteration, so
`(e - s).toNat` steps of fuel always suffice; `chunkIntervals_eq` below shows
this definition satisfies the literal while-loop unfolding equation. -/
def chunkIntervals (s e : Int) : List (Int × Int) :=
  chunkGo (e - s).toNat s e

/-- Well-formedness of a chunk list for the interval [s, e): it starts at s,
each chunk is nonempty, no longer than the maximum chunk size, starts where
the previous one ended, and the last chunk ends exactly at e. -/
def chainOk (s e : Int) : List (Int × Int) → Prop
  | [] => s = e
  | c :: rest => c.1 = s ∧ s < c.2 ∧ c.2 - s ≤ chunkSizeSeconds ∧ chainOk c.2 e rest

/-- The concatenated datapoints fetched by `get_metric_data_chunked`, with the
CloudWatch call abstracted as `fetch`. -/
def getMetricDataChunked (fetch : Int → Int → List Datapoint) (s e : Int) :
    List Datapoint :=
  (chunkIntervals s e).flatMap (fun c => fetch c.1 c.2)

/-- Row built from a raw datapoint in `collect_metrics`: each statistic
defaults to 0 when absent, mirroring `dp.get("Sum", 0)` and friends. -/
def toSample (gt gid m : String) (dp : Datapoint) : MetricSample :=
  { gatewayType := gt, gatewayId := gid, metric := m, ts := dp.ts,
    sum := dp.sumStat.getD 0, average := dp.avgStat.getD 0,
    maximum := dp.maxStat.getD 0, minimum := dp.minStat.getD 0 }

/-- The synthetic all-zero row appended by `collect_metrics` for an IGW metric
with no datapoints: timestamped at the window start, all statistics 0. -/
def zeroSample (gt gid m : String) (s : Int) : MetricSample :=
  { gatewayType := gt, gatewayId := gid, metric := m, ts := s,
    sum := 0, average := 0, maximum := 0, minimum := 0 }

/-- Datapoints the IGW branch of `collect_metrics` works from: the per-chunk
fetch runs only when the `list_metrics` existence probe returned any metric. -/
def rawIgwDatapoints (probeHit : Bool) (fetch : Int → Int → List Datapoint)
    (s e : Int) : List Datapoint :=
  if probeHit then getMetricDataChunked fetch s e else []

/-- IGW branch of `collect_metrics` for one (gateway, metric) pair: the rows
appended, paired with the number of per-chunk `get_metric_statistics` calls
issued (zero when the probe reported no metric). -/
def collectIgwMetric (gid m : String) (probeHit : Bool)
    (fetch : Int → Int → List Datapoint) (s e : Int) :
    List MetricSample × Nat :=
  let dps := rawIgwDatapoints probeHit fetch s e
  ((if dps.isEmpty then [zeroSample "IGW" gid m s] else []) ++
      dps.map (toSample "IGW" gid m),
   if probeHit then (chunkIntervals s e).length else 0)

/-- NAT branch of `collect_metrics` for one (gateway, metric) pair: rows are
appended only for fetched datapoints (no probe, no placeholder), and one
per-chunk call is always issued for every chunk. -/
def collectNatMetric (gid m : String) (fetch : Int → Int → List Datapoint)
    (s e : Int) : List MetricSample × Nat :=
  ((getMetricDataChunked fetch s e).map (toSample "NAT" gid m),
   (chunkIntervals s e).length)

/-- All rows `collect_metrics` appends for one Internet Gateway: the IGW
metric loop over `IGW_METRICS`, with a per-metric probe result and fetch. -/
def collectIgwAll (gid : String) (probe : String → Bool)
    (fetch : String → Int → Int → List Datapoint) (s e : Int) :
    List MetricSample :=
  IGW_METRICS.flatMap (fun m => (collectIgwMetric gid m (probe m) (fetch m) s e).1)

/-- All rows `collect_metrics` appends for one NAT Gateway: the NAT metric
loop over `NAT_METRICS`. -/
def collectNatAll (gid : String) (fetch : String → Int → Int → List Datapoint)
    (s e : Int) : List MetricSample :=
  NAT_METRICS.flatMap (fun m => (collectNatMetric gid m (fetch m) s e).1)

/-- Python substring test `needle in hay` on strings. -/
def strContains (hay needle : String) : Bool :=
  (List.range (hay.toList.length + 1)).any
    (fun i => needle.toList.isPrefixOf (hay.toList.drop i))

/-- traffic_metrics in `analyze_idle_time`: catalog names containing the
substring Bytes or the substring Packets. -/
def trafficMetricNames (metricsList : List String) : List String :=
  metricsList.filter (fun m => strContains m "Bytes" || strContains m "Packets")

/-- Metric catalog chosen by the `analyze_idle_time` outer loop for a kind. -/
def metricsFor (kindIsNat : Bool) : List String :=
  if kindIsNat then NAT_METRICS else IGW_METRICS

/-- Total_Periods: the number of distinct timestamps of the rows of one
gateway (`len(gw["Timestamp"].unique())`). -/
def totalPeriods (gw : List MetricSample) : Nat :=
  ((gw.map (fun r => r.ts)).dedup).length

/-- Idle_Periods as the source computes it: the number of distinct timestamps
among rows whose metric is traffic-classified and whose Sum is 0. -/
def idlePeriods (tm : List String) (gw : List MetricSample) : Nat :=
  (((gw.filter (fun r => decide (r.metric ∈ tm) && decide (r.sum = 0))).map
      (fun r => r.ts)).dedup).length

/-- idle_pct before rounding: idle over total times 100, 0 when no periods. -/
def idlePct (tp ip : Nat) : ℚ :=
  if 0 < tp then (ip : ℚ) / (tp : ℚ) * 100 else 0

/-- Python `round(x, 2)` modelled over the exact rationals; equal to the
Mathlib `round` of the scaled value (`round2_eq_round` below). -/
def round2 (x : ℚ) : ℚ := (((x * 100 + 1/2).floor : ℤ) : ℚ) / 100

/-- secs in `analyze_idle_time`: total_periods * PERIOD_SECONDS, or 1 when
there are no periods. -/
def secsFor (tp : Nat) : ℚ :=
  if 0 < tp then (tp : ℚ) * periodSecondsQ else 1

/-- Sum of the Sum column over the rows whose metric is in `names`
(`gw[gw["Metric"].isin(names)]["Sum"].sum()`). -/
def sumWhere (names : List String) (gw : List MetricSample) : ℚ :=
  ((gw.filter (fun r => decide (r.metric ∈ names))).map (fun r => r.sum)).sum

/-- NAT connection counters of `_nat_summary`. -/
structure NatConnStats where
  totalConnectionAttempts : ℚ
  totalConnectionTimeouts : ℚ
  portAllocationErrors : ℚ
  maxActiveConnections : ℚ
  avgActiveConnections : ℚ
deriving DecidableEq, Repr

/-- IGW drop counters of `_igw_summary`. -/
structure IgwDropStats where
  blackholeDropBytes : ℚ
  noRouteDropBytes : ℚ
  blackholeDropPackets : ℚ
  noRouteDropPackets : ℚ
deriving DecidableEq, Repr

/-- Maximum of a rational list with pandas semantics on the nonempty case;
the empty case is never reached because the caller guards on presence. -/
def listMaxD : List ℚ → ℚ
  | [] => 0
  | x :: xs => xs.foldl max x

/-- NAT-only counters from `_nat_summary` (connection counters plus the
maximum and mean of the ActiveConnectionCount own Maximum/Average columns). -/
def natConnStats (gw : List MetricSample) : NatConnStats :=
  let acc := gw.filter (fun r => decide (r.metric = "ActiveConnectionCount"))
  { totalConnectionAttempts := sumWhere ["ConnectionAttemptCount"] gw,
    totalConnectionTimeouts := sumWhere ["IdleTimeoutCount"] gw,
    portAllocationErrors := sumWhere ["ErrorPortAllocation"] gw,
    maxActiveConnections :=
      if acc.isEmpty then 0 else listMaxD (acc.map (fun r => r.maximum)),
    avgActiveConnections :=
      if acc.isEmpty then 0
      else (acc.map (fun r => r.average)).sum / (acc.length : ℚ) }

/-- IGW-only drop counters from `_igw_summary`. -/
def igwDropStats (gw : List MetricSample) : IgwDropStats :=
  { blackholeDropBytes := sumWhere ["BytesDropCountBlackholeIPv4"] gw,
    noRouteDropBytes := sumWhere ["BytesDropCountNoRouteIPv4"] gw,
    blackholeDropPackets := sumWhere ["PacketsDropCountBlackholeIPv4"] gw,
    noRouteDropPackets := sumWhere ["PacketsDropCountNoRouteIPv4"] gw }

/-- Status in `_igw_summary`: Inactive when every Sum of the gateway is zero,
Active otherwise. -/
def igwStatus (gw : List MetricSample) : String :=
  if gw.all (fun r => decide (r.sum = 0)) then "Inactive" else "Active"

/-- Bytes-in grouped sum: NAT merges source and destination directions, IGW
uses the single destination metric. -/
def bytesInOf (k : Bool) (gw : List MetricSample) : ℚ :=
  if k then sumWhere ["BytesInFromSource", "BytesInFromDestination"] gw
  else sumWhere ["BytesInFromDestination"] gw

/-- Bytes-out grouped sum, analogous to `bytesInOf`. -/
def bytesOutOf (k : Bool) (gw : List MetricSample) : ℚ :=
  if k then sumWhere ["BytesOutToSource", "BytesOutToDestination"] gw
  else sumWhere ["BytesOutToDestination"] gw

/-- Packets-in grouped sum, analogous to `bytesInOf`. -/
def packetsInOf (k : Bool) (gw : List MetricSample) : ℚ :=
  if k then sumWhere ["PacketsInFromSource", "PacketsInFromDestination"] gw
  else sumWhere ["PacketsInFromDestination"] gw

/-- Packets-out grouped sum, analogous to `bytesInOf`. -/
def packetsOutOf (k : Bool) (gw : List MetricSample) : ℚ :=
  if k then sumWhere ["PacketsOutToSource", "PacketsOutToDestination"] gw
  else sumWhere ["PacketsOutToDestination"] gw

/-- The summary record assembled for one gateway by `analyze_idle_time`
(identity columns omitted; kind-specific counters behind options). -/
structure GatewaySummary where
  totalPeriodsF : Nat
  idlePeriodsF : Nat
  idlePercentage : ℚ
  totalBytesIn : ℚ
  totalBytesOut : ℚ
  totalPacketsIn : ℚ
  totalPacketsOut : ℚ
  totalBytes : ℚ
  totalPackets : ℚ
  bytesPerSecondAvg : ℚ
  packetsPerSecondAvg : ℚ
  natStats : Option NatConnStats
  igwStats : Option IgwDropStats
  statusF : Option String
deriving DecidableEq, Repr

/-- Body of the per-gateway loop of `analyze_idle_time`, for a gateway of the
given kind (true = NAT) whose restricted sample table is `gw`. -/
def analyzeOne (k : Bool) (gw : List MetricSample) : GatewaySummary :=
  let tp := totalPeriods gw
  let ip := idlePeriods (trafficMetricNames (metricsFor k)) gw
  let bIn := bytesInOf k gw
  let bOut := bytesOutOf k gw
  let pIn := packetsInOf k gw
  let pOut := packetsOutOf k gw
  { totalPeriodsF := tp
    idlePeriodsF := ip
    idlePercentage := round2 (idlePct tp ip)
    totalBytesIn := bIn
    totalBytesOut := bOut
    totalPacketsIn := pIn
    totalPacketsOut := pOut
    totalBytes := bIn + bOut
    totalPackets := pIn + pOut
    bytesPerSecondAvg := round2 ((bIn + bOut) / secsFor tp)
    packetsPerSecondAvg := round2 ((pIn + pOut) / secsFor tp)
    natStats := if k then some (natConnStats gw) else none
    igwStats := if k then none else some (igwDropStats gw)
    statusF := if k then none else some (igwStatus gw) }

/-- Restriction of the flat table to one gateway, as
`df[(df["Gateway_Type"] == t) & (df["Gateway_ID"] == id)]`. -/
def restrict (gt gid : String) (df : List MetricSample) : List MetricSample :=
  df.filter (fun r => decide (r.gatewayType = gt) && decide (r.gatewayId = gid))

/-- Distinct gateway ids of one kind present in the table, in first-seen
order (`df[df["Gateway_Type"] == t]["Gateway_ID"].unique()`). -/
def gatewayIds (gt : String) (df : List MetricSample) : List String :=
  ((df.filter (fun r => decide (r.gatewayType = gt))).map
    (fun r => r.gatewayId)).dedup

/-- analyze_idle_time: one summary per (kind, gateway id) found in the table,
NAT gateways first then IGWs, as the outer loop iterates. -/
def analyzeIdleTime (df : List MetricSample) : List GatewaySummary :=
  ((gatewayIds "NAT" df).map (fun gid => analyzeOne true (restrict "NAT" gid df)))
    ++ ((gatewayIds "IGW" df).map (fun gid => analyzeOne false (restrict "IGW" gid df)))

/-- Idle-period count as claim C1 words it: the number of distinct timestamps
at which traffic metrics were observed and every observed traffic-classified
row has Sum 0.  Stated from the claim text, to be compared with the
source-derived `idlePeriods`. -/
def idlePeriodsAllZeroSpec (tm : List String) (gw : List MetricSample) : Nat :=
  ((((gw.filter (fun r => decide (r.metric ∈ tm))).map (fun r => r.ts)).dedup).filter
    (fun t =>
      (gw.filter (fun r => decide (r.metric ∈ tm) && decide (r.ts = t))).all
        (fun r => decide (r.sum = 0)))).length

/-- Idle-period count as the amended claim C1 words it: the number of
distinct timestamps at which at least one traffic-classified row has Sum 0.
Stated from the amended claim text, to be compared with the source-derived
`idlePeriods`. -/
def idlePeriodsAmended (tm : List String) (gw : List MetricSample) : Nat :=
  (((gw.map (fun r => r.ts)).dedup).filter
    (fun t =>
      gw.any (fun r =>
        decide (r.metric ∈ tm) && decide (r.sum = 0) && decide (r.ts = t)))).length

/-- Sample table for the C1 counterexample: one NAT gateway, one timestamp,
one traffic metric with Sum 0 next to another traffic metric with Sum 5. -/
def exTableC1 : List MetricSample :=
  [{ gatewayType := "NAT", gatewayId := "nat-1", metric := "BytesInFromSource",
     ts := 0, sum := 0, average := 0, maximum := 0, minimum := 0 },
   { gatewayType := "NAT", gatewayId := "nat-1", metric := "BytesOutToSource",
     ts := 0, sum := 5, average := 5, maximum := 5, minimum := 5 }]

/-- Sample table for the C4 witness: one IGW row with a nonzero Sum. -/
def exTableC4 : List MetricSample :=
  [{ gatewayType := "IGW", gatewayId := "igw-1", metric := "BytesInFromDestination",
     ts := 0, sum := 7, average := 7, maximum := 7, minimum := 7 }]

/-- Sample table for the C9 witness: one NAT gateway with one sample. -/
def exTableC9 : List MetricSample :=
  [{ gatewayType := "NAT", gatewayId := "nat-1", metric := "BytesInFromSource",
     ts := 0, sum := 5, average := 5, maximum := 5, minimum := 5 }]

/-- The summary `analyze_idle_time` produces for an Internet Gateway all of
whose catalog metrics had no datapoints: one synthetic period, fully idle,
every grouped sum zero, zero rates, Inactive status. -/
def allZeroIgwSummary : GatewaySummary :=
  { totalPeriodsF := 1, idlePeriodsF := 1, idlePercentage := 100,
    totalBytesIn := 0, totalBytesOut := 0, totalPacketsIn := 0,
    totalPacketsOut := 0, totalBytes := 0, totalPackets := 0,
    bytesPerSecondAvg := 0, packetsPerSecondAvg := 0,
    natStats := none,
    igwStats := some { blackholeDropBytes := 0, noRouteDropBytes := 0,
                       blackholeDropPackets := 0, noRouteDropPackets := 0 },
    statusF := some "Inactive" }

/-! Helper lemmas about the window chunker. -/

/-- The chunk loop result does not depend on the fuel, once the fuel is at
least the number of seconds in the interval. -/
theorem chunkGo_congr :
    ∀ (f1 f2 : Nat) (s e : Int), (e - s).toNat ≤ f1 → (e - s).toNat ≤ f2 →
      chunkGo f1 s e = chunkGo f2 s e := by
  intro f1
  induction f1 with
  | zero =>
    intro f2 s e h1 h2
    have hse : ¬ s < e := by omega
    cases f2 with
    | zero => rfl
    | succ m => simp [chunkGo, hse]
  | succ n ih =>
    intro f2 s e h1 h2
    by_cases hse : s < e
    · cases f2 with
      | zero => omega
      | succ m =>
        simp only [chunkGo, if_pos hse]
        have hd : chunkSizeSeconds = 2592000 := rfl
        rcases le_total (s + chunkSizeSeconds) e with hc | hc
        · rw [min_eq_left hc]
          rw [ih m (s + chunkSizeSeconds) e (by omega) (by omega)]
        · rw [min_eq_right hc]
          rw [ih m e e (by omega) (by omega)]
    · cases f2 with
      | zero => simp [chunkGo, hse]
      | succ m => simp [chunkGo, hse]

/-- `chunkIntervals` satisfies the literal unfolding of the source while
loop: emit [chunk_start, min (chunk_start + 30 days) end_time) and continue
from the chunk end, stopping once chunk_start is at or past end_time. -/
theorem chunkIntervals_eq (s e : Int) :
    chunkIntervals s e =
      if s < e then
        (s, min (s + chunkSizeSeconds) e)
          :: chunkIntervals (min (s + chunkSizeSeconds) e) e
      else [] := by
  by_cases hse : s < e
  · rw [if_pos hse]
    rw [chunkIntervals, chunkIntervals]
    have h1 : (e - s).toNat = (e - s).toNat - 1 + 1 := by omega
    rw [h1]
    simp only [chunkGo, if_pos hse]
    have hd : chunkSizeSeconds = 2592000 := rfl
    rcases le_total (s + chunkSizeSeconds) e with hc | hc
    · rw [min_eq_left hc]
      rw [chunkGo_congr ((e - s).toNat - 1) (e - (s + chunkSizeSeconds)).toNat
        (s + chunkSizeSeconds) e (by omega) (by omega)]
    · rw [min_eq_right hc]
      rw [chunkGo_congr ((e - s).toNat - 1) (e - e).toNat e e (by omega) (by omega)]
  · rw [if_neg hse, chunkIntervals]
    have h0 : (e - s).toNat = 0 := by omega
    rw [h0]
    rfl

/-- Any chunk loop run with enough fuel, started within the interval,
produces a well-formed chunk chain for [s, e). -/
theorem chunkGo_chain :
    ∀ (fuel : Nat) (s e : Int), (e - s).toNat ≤ fuel → s ≤ e →
      chainOk s e (chunkGo fuel s e) := by
  intro fuel
  induction fuel with
  | zero =>
    intro s e hf hse
    have h : s = e := by omega
    subst h
    simp [chunkGo, chainOk]
  | succ n ih =>
    intro s e hf hse
    by_cases h : s < e
    · simp only [chunkGo, if_pos h, chainOk]
      have hd : chunkSizeSeconds = 2592000 := rfl
      rcases le_total (s + chunkSizeSeconds) e with hc | hc
      · rw [min_eq_left hc]
        exact ⟨by trivial, by omega, by omega, ih (s + chunkSizeSeconds) e (by omega) (by omega)⟩
      · rw [min_eq_right hc]
        exact ⟨by trivial, by omega, by omega, ih e e (by omega) (by omega)⟩
    · have heq : s = e := by omega
      subst heq
      simp [chunkGo, chainOk]

/-- A degenerate interval (end at or before start) produces no chunks. -/
theorem chunkIntervals_degenerate (s e : Int) (h : e ≤ s) :
    chunkIntervals s e = [] := by
  rw [chunkIntervals]
  have h0 : (e - s).toNat = 0 := by omega
  rw [h0]
  rfl

/-! Helper lemmas about rounding and the aggregator. -/

/-- `round2` agrees with the Mathlib nearest-integer rounding of the value
scaled by 100. -/
theorem round2_eq_round (x : ℚ) :
    round2 x = ((round (x * 100) : ℤ) : ℚ) / 100 := by
  rw [round_eq]
  rfl

/-- Rounding to two decimals preserves nonnegativity. -/
theorem round2_nonneg (x : ℚ) (h : 0 ≤ x) : 0 ≤ round2 x := by
  rw [round2_eq_round]
  have h1 : (0 : ℤ) ≤ round (x * 100) := by
    rw [round_eq]
    have h0 : (0 : ℤ) = ⌊(0 : ℚ) + 1 / 2⌋ := by norm_num
    rw [h0]
    exact Int.floor_le_floor (by linarith)
  have h2 : (0 : ℚ) ≤ ((round (x * 100) : ℤ) : ℚ) := by exact_mod_cast h1
  exact div_nonneg h2 (by norm_num)

/-- Rounding to two decimals preserves the upper bound 100. -/
theorem round2_le_100 (x : ℚ) (h : x ≤ 100) : round2 x ≤ 100 := by
  rw [round2_eq_round]
  have h1 : round (x * 100) ≤ (10000 : ℤ) := by
    rw [round_eq]
    have h0 : (10000 : ℤ) = ⌊(10000 : ℚ) + 1 / 2⌋ := by norm_num
    rw [h0]
    exact Int.floor_le_floor (by linarith)
  have h2 : ((round (x * 100) : ℤ) : ℚ) ≤ 10000 := by exact_mod_cast h1
  linarith

/-- A list with a subset relation has no more distinct elements. -/
theorem dedup_length_le_of_subset {α : Type} [DecidableEq α]
    {l1 l2 : List α} (h : l1 ⊆ l2) : l1.dedup.length ≤ l2.dedup.length := by
  rw [← List.card_toFinset, ← List.card_toFinset]
  refine Finset.card_le_card ?_
  intro x hx
  rw [List.mem_toFinset] at *
  exact h hx

/-- The idle-period count never exceeds the total-period count. -/
theorem idlePeriods_le_totalPeriods (tm : List String) (gw : List MetricSample) :
    idlePeriods tm gw ≤ totalPeriods gw := by
  refine dedup_length_le_of_subset ?_
  exact List.map_subset _ (List.filter_subset' _)

/-- A gateway restriction has no periods exactly when it has no rows. -/
theorem totalPeriods_eq_zero_iff (gw : List MetricSample) :
    totalPeriods gw = 0 ↔ gw = [] := by
  rw [totalPeriods, List.length_eq_zero, List.dedup_eq_nil, List.map_eq_nil_iff]

/-- The rate denominator equals the max-with-1 form used in the spec. -/
theorem secsFor_eq_max (tp : Nat) :
    secsFor tp = max ((tp : ℚ) * periodSecondsQ) 1 := by
  rw [secsFor]
  rcases Nat.eq_zero_or_pos tp with h | h
  · subst h
    norm_num [periodSecondsQ]
  · rw [if_pos h]
    have h1 : (1 : ℚ) ≤ (tp : ℚ) * periodSecondsQ := by
      have h2 : (1 : ℚ) ≤ (tp : ℚ) := by exact_mod_cast h
      have h3 : (1 : ℚ) ≤ periodSecondsQ := by norm_num [periodSecondsQ]
      calc (1 : ℚ) = 1 * 1 := by norm_num
        _ ≤ (tp : ℚ) * periodSecondsQ :=
            mul_le_mul h2 h3 (by norm_num) (by linarith)
    exact (max_eq_left h1).symm

/-- The rate denominator is always at least one second. -/
theorem one_le_secsFor (tp : Nat) : 1 ≤ secsFor tp := by
  rw [secsFor_eq_max]
  exact le_max_right _ _

/-- The unrounded idle percentage is nonnegative. -/
theorem idlePct_nonneg (tp ip : Nat) : 0 ≤ idlePct tp ip := by
  rw [idlePct]
  split
  · positivity
  · exact le_refl 0

/-- The unrounded idle percentage is at most 100 when idle periods do not
exceed total periods. -/
theorem idlePct_le_100 (tp ip : Nat) (h : ip ≤ tp) : idlePct tp ip ≤ 100 := by
  rw [idlePct]
  split
  · next htp =>
    have h1 : (ip : ℚ) ≤ (tp : ℚ) := by exact_mod_cast h
    have h2 : (0 : ℚ) < (tp : ℚ) := by exact_mod_cast htp
    have h3 : (ip : ℚ) / (tp : ℚ) ≤ 1 := (div_le_one h2).mpr h1
    nlinarith
  · norm_num

/-- If every row of a table has Sum 0, any grouped sum over it is 0. -/
theorem sumWhere_eq_zero (names : List String) (gw : List MetricSample)
    (h : ∀ r ∈ gw, r.sum = 0) : sumWhere names gw = 0 := by
  rw [sumWhere]
  refine List.sum_eq_zero ?_
  intro x hx
  rw [List.mem_map] at hx
  obtain ⟨r, hr, rfl⟩ := hx
  exact h r (List.filter_subset' _ hr)

/-- An IGW (gateway, metric) pair whose raw datapoint list is empty gets
exactly the one synthetic zero row. -/
theorem collectIgwMetric_zero_fill (gid m : String) (probeHit : Bool)
    (fetch : Int → Int → List Datapoint) (s e : Int)
    (h : rawIgwDatapoints probeHit fetch s e = []) :
    (collectIgwMetric gid m probeHit fetch s e).1 = [zeroSample "IGW" gid m s] := by
  rw [collectIgwMetric]
  simp [h]

/-- The source idle-period count equals the count of distinct timestamps
carrying at least one zero-sum traffic row. -/
theorem idlePeriods_eq_amended (tm : List String) (gw : List MetricSample) :
    idlePeriods tm gw = idlePeriodsAmended tm gw := by
  rw [idlePeriods, idlePeriodsAmended]
  have hnd :
      (((gw.map (fun r => r.ts)).dedup).filter
        (fun t =>
          gw.any (fun r =>
            decide (r.metric ∈ tm) && decide (r.sum = 0) && decide (r.ts = t)))).Nodup :=
    (List.nodup_dedup _).filter _
  rw [← List.card_toFinset, ← List.toFinset_card_of_nodup hnd]
  congr 1
  ext t
  simp only [List.mem_toFinset, List.mem_map, List.mem_filter, List.mem_dedup,
    List.any_eq_true, Bool.and_eq_true, decide_eq_true_eq]
  constructor
  · rintro ⟨r, ⟨hr, hm, hs⟩, ht⟩
    exact ⟨⟨r, hr, ht⟩, r, hr, ⟨hm, hs⟩, ht⟩
  · rintro ⟨-, r, hr, ⟨hm, hs⟩, ht⟩
    exact ⟨r, ⟨hr, hm, hs⟩, ht⟩

/-- Every IGW catalog metric is traffic-classified (each name contains the
substring Bytes or Packets). -/
theorem igw_metric_traffic (m : String) (hm : m ∈ IGW_METRICS) :
    m ∈ trafficMetricNames (metricsFor false) := by
  fin_cases hm <;> decide

/-- Mapping a nonempty list to a constant and removing duplicates leaves the
one constant. -/
theorem dedup_map_const {α β : Type} [DecidableEq β] (l : List α) (c : β)
    (h : l ≠ []) : (l.map (fun _ => c)).dedup = [c] := by
  induction l with
  | nil => exact absurd rfl h
  | cons a t ih =>
    cases t with
    | nil => simp
    | cons b t2 =>
      rw [List.map_cons, List.dedup_cons_of_mem (by simp)]
      exact ih (by simp)

/-- Shape of the rows in an all-placeholder IGW table. -/
theorem mem_zeroTable {gid : String} {s : Int} {r : MetricSample}
    (hr : r ∈ IGW_METRICS.map (fun m => zeroSample "IGW" gid m s)) :
    r.gatewayType = "IGW" ∧ r.gatewayId = gid ∧ r.ts = s ∧ r.sum = 0 ∧
      r.metric ∈ IGW_METRICS := by
  rw [List.mem_map] at hr
  obtain ⟨m, hm, rfl⟩ := hr
  exact ⟨rfl, rfl, rfl, rfl, hm⟩

/-- When every IGW metric has an empty raw datapoint list, the collector
emits exactly the eight synthetic zero rows. -/
theorem collectIgwAll_zero (gid : String) (probe : String → Bool)
    (fetch : String → Int → Int → List Datapoint) (s e : Int)
    (h : ∀ m ∈ IGW_METRICS, rawIgwDatapoints (probe m) (fetch m) s e = []) :
    collectIgwAll gid probe fetch s e =
      IGW_METRICS.map (fun m => zeroSample "IGW" gid m s) := by
  rw [collectIgwAll]
  have aux : ∀ ms : List String,
      (∀ m ∈ ms, rawIgwDatapoints (probe m) (fetch m) s e = []) →
      ms.flatMap (fun m => (collectIgwMetric gid m (probe m) (fetch m) s e).1) =
        ms.map (fun m => zeroSample "IGW" gid m s) := by
    intro ms
    induction ms with
    | nil => intro _; rfl
    | cons a t ih =>
      intro hm
      rw [List.flatMap_cons, List.map_cons,
        collectIgwMetric_zero_fill gid a (probe a) (fetch a) s e (hm a (by simp)),
        ih (fun m hmem => hm m (by simp [hmem]))]
      rfl
  exact aux IGW_METRICS h

/-- The per-gateway analysis of the all-placeholder IGW table yields the
all-zero inactive summary. -/
theorem analyzeOne_zeroTable (gid : String) (s : Int) :
    analyzeOne false (IGW_METRICS.map (fun m => zeroSample "IGW" gid m s)) =
      allZeroIgwSummary := by
  set zs := IGW_METRICS.map (fun m => zeroSample "IGW" gid m s) with hzs
  have hts : zs.map (fun r => r.ts) = IGW_METRICS.map (fun _ => s) := by
    rw [hzs, List.map_map]
    rfl
  have htp : totalPeriods zs = 1 := by
    rw [totalPeriods, hts, dedup_map_const _ _ (by decide)]
    rfl
  have hsum0 : ∀ r ∈ zs, r.sum = 0 := fun r hr => (mem_zeroTable hr).2.2.2.1
  have hip : idlePeriods (trafficMetricNames (metricsFor false)) zs = 1 := by
    rw [idlePeriods]
    have hfil : zs.filter
        (fun r => decide (r.metric ∈ trafficMetricNames (metricsFor false)) &&
          decide (r.sum = 0)) = zs := by
      rw [List.filter_eq_self]
      intro r hr
      obtain ⟨-, -, -, h0, hmem⟩ := mem_zeroTable hr
      simp [igw_metric_traffic r.metric hmem, h0]
    rw [hfil, hts, dedup_map_const _ _ (by decide)]
    rfl
  have hst : igwStatus zs = "Inactive" := by
    rw [igwStatus, if_pos]
    exact List.all_eq_true.mpr (fun r hr => by simp [hsum0 r hr])
  have hdrop : igwDropStats zs =
      { blackholeDropBytes := 0, noRouteDropBytes := 0,
        blackholeDropPackets := 0, noRouteDropPackets := 0 } := by
    rw [igwDropStats]
    simp [sumWhere_eq_zero _ _ hsum0]
  rw [analyzeOne]
  simp only [htp, hip, hst, hdrop, bytesInOf, bytesOutOf, packetsInOf, packetsOutOf,
    Bool.false_eq_true, if_false, sumWhere_eq_zero _ _ hsum0, allZeroIgwSummary]
  norm_num
  decide

/-- Full analysis of the all-placeholder IGW table: exactly one summary row,
the all-zero inactive one. -/
theorem analyzeIdleTime_zeroTable (gid : String) (s : Int) :
    analyzeIdleTime (IGW_METRICS.map (fun m => zeroSample "IGW" gid m s)) =
      [allZeroIgwSummary] := by
  set zs := IGW_METRICS.map (fun m => zeroSample "IGW" gid m s) with hzs
  have hnat : gatewayIds "NAT" zs = [] := by
    rw [gatewayIds]
    have h0 : zs.filter (fun r => decide (r.gatewayType = "NAT")) = [] := by
      rw [List.filter_eq_nil_iff]
      intro r hr
      simp [(mem_zeroTable hr).1]
    rw [h0]
    rfl
  have hids : gatewayIds "IGW" zs = [gid] := by
    rw [gatewayIds]
    have h1 : zs.filter (fun r => decide (r.gatewayType = "IGW")) = zs := by
      rw [List.filter_eq_self]
      intro r hr
      simp [(mem_zeroTable hr).1]
    have h2 : zs.map (fun r => r.gatewayId) = IGW_METRICS.map (fun _ => gid) := by
      rw [hzs, List.map_map]
      rfl
    rw [h1, h2, dedup_map_const _ _ (by decide)]
  have hres : restrict "IGW" gid zs = zs := by
    rw [restrict, List.filter_eq_self]
    intro r hr
    obtain ⟨h1, h2, -⟩ := mem_zeroTable hr
    simp [h1, h2]
  rw [analyzeIdleTime, hnat, hids]
  simp only [List.map_nil, List.map_cons, List.nil_append, hres]
  rw [hzs, analyzeOne_zeroTable]

/-! Claim theorems. -/

/-- Claim C1, counterexample: on a table with one timestamp holding a
zero-sum traffic row next to a nonzero-sum traffic row, the code counts the
timestamp as idle (Idle_Periods = 1) while the claim as stated demands the
count of timestamps where every observed traffic metric is zero, which is 0
here.  The claimed value and the computed value differ. -/
theorem c1_idle_periods_all_zero_cex :
    (analyzeOne true exTableC1).idlePeriodsF = 1 ∧
    idlePeriodsAllZeroSpec (trafficMetricNames (metricsFor true)) exTableC1 = 0 := by
  decide

/-- Claim C1, amended: for every gateway, Idle_Periods equals the number of
distinct timestamps at which at least one traffic-classified row has Sum 0;
a timestamp with some zero-sum traffic row counts as idle even if another
traffic metric reports a nonzero sum there. -/
theorem c1_idle_periods_exists_zero (k : Bool) (gw : List MetricSample) :
    (analyzeOne k gw).idlePeriodsF =
      idlePeriodsAmended (trafficMetricNames (metricsFor k)) gw :=
  idlePeriods_eq_amended _ _

/-- Claim C2: for start before end the chunk sequence starts at start, is
contiguous and non-overlapping, each sub-interval is nonempty and at most 30
days long, and the last ends exactly at end; for start at or past end it is
empty; and a 65-day interval yields exactly the three chunks of 30, 30 and 5
days. -/
theorem c2_chunker_covers :
    (∀ s e : Int, s ≤ e → chainOk s e (chunkIntervals s e)) ∧
    (∀ s e : Int, e ≤ s → chunkIntervals s e = []) ∧
    chunkIntervals 0 5616000 =
      [(0, 2592000), (2592000, 5184000), (5184000, 5616000)] := by
  refine ⟨?_, ?_, by decide⟩
  · intro s e h
    exact chunkGo_chain _ s e le_rfl h
  · intro s e h
    exact chunkIntervals_degenerate s e h

/-- Claim C2, witness: the 65-day interval instance of the coverage
property. -/
theorem c2_chunker_covers_witness :
    chainOk 0 5616000 (chunkIntervals 0 5616000) :=
  c2_chunker_covers.1 0 5616000 (by decide)

/-- Claim C3: when the existence probe reports no data for an IGW metric,
the collector issues zero per-chunk fetch calls and appends exactly one
synthetic zero sample timestamped at the window start; NAT metrics are
always fetched with one call per chunk and no probe. -/
theorem c3_igw_probe_skip (gid m : String) (fetch : Int → Int → List Datapoint)
    (s e : Int) :
    collectIgwMetric gid m false fetch s e = ([zeroSample "IGW" gid m s], 0) ∧
    (collectNatMetric gid m fetch s e).2 = (chunkIntervals s e).length :=
  ⟨rfl, rfl⟩

/-- Claim C4: an IGW summary has status Inactive exactly when every sample
of that gateway in the table has Sum 0, over all metrics; it has status
Active exactly when some sample has a nonzero Sum. -/
theorem c4_igw_status_iff (df : List MetricSample) (gid : String) :
    ((analyzeOne false (restrict "IGW" gid df)).statusF = some "Inactive" ↔
      ∀ r ∈ restrict "IGW" gid df, r.sum = 0) ∧
    ((analyzeOne false (restrict "IGW" gid df)).statusF = some "Active" ↔
      ∃ r ∈ restrict "IGW" gid df, r.sum ≠ 0) := by
  have hs : (analyzeOne false (restrict "IGW" gid df)).statusF =
      some (igwStatus (restrict "IGW" gid df)) := rfl
  rw [hs, igwStatus]
  by_cases h : (restrict "IGW" gid df).all (fun r => decide (r.sum = 0)) = true
  · rw [if_pos h]
    simp only [List.all_eq_true, decide_eq_true_eq] at h
    constructor
    · simp only [Option.some.injEq]
      exact ⟨fun _ => h, fun _ => trivial⟩
    · constructor
      · intro habs
        exact absurd habs (by decide)
      · rintro ⟨r, hr, hne⟩
        exact absurd (h r hr) hne
  · rw [if_neg h]
    simp only [List.all_eq_true, decide_eq_true_eq, not_forall] at h
    constructor
    · constructor
      · intro habs
        exact absurd habs (by decide)
      · intro hall
        obtain ⟨r, hr, hne⟩ := h
        exact absurd (hall r hr) hne
    · simp only [Option.some.injEq]
      refine ⟨fun _ => ?_, fun _ => trivial⟩
      obtain ⟨r, hr, hne⟩ := h
      exact ⟨r, hr, hne⟩

/-- Claim C4, witness: a one-row IGW table with a nonzero sum is classified
Active. -/
theorem c4_igw_status_iff_witness :
    (analyzeOne false (restrict "IGW" "igw-1" exTableC4)).statusF =
      some "Active" :=
  (c4_igw_status_iff exTableC4 "igw-1").2.mpr
    ⟨{ gatewayType := "IGW", gatewayId := "igw-1",
       metric := "BytesInFromDestination", ts := 0, sum := 7, average := 7,
       maximum := 7, minimum := 7 }, by decide, by decide⟩

/-- Claim C5, counterexample: a NAT gateway none of whose metrics has data
produces no rows at all (no zero placeholder), and the gateway is then
absent from the analysis output, contradicting the claim that every gateway
of either kind is kept via placeholder samples. -/
theorem c5_nat_placeholder_cex :
    collectNatAll "nat-1" (fun _ _ _ => []) 0 86400 = [] ∧
    analyzeIdleTime (collectNatAll "nat-1" (fun _ _ _ => []) 0 86400) = [] := by
  decide

/-- Claim C5, amended: only the IGW loop records placeholders: an IGW
(gateway, metric) pair whose raw datapoints are empty gets exactly one zero
placeholder at the window start, while a NAT (gateway, metric) pair with no
data contributes no rows. -/
theorem c5_placeholder_policy (gid m : String) (probeHit : Bool)
    (fetch : Int → Int → List Datapoint) (s e : Int) :
    (rawIgwDatapoints probeHit fetch s e = [] →
      (collectIgwMetric gid m probeHit fetch s e).1 =
        [zeroSample "IGW" gid m s]) ∧
    (getMetricDataChunked fetch s e = [] →
      (collectNatMetric gid m fetch s e).1 = []) := by
  constructor
  · exact collectIgwMetric_zero_fill gid m probeHit fetch s e
  · intro h
    rw [collectNatMetric]
    simp [h]

/-- Claim C5, witness: the IGW placeholder branch at a concrete input. -/
theorem c5_placeholder_policy_witness :
    (collectIgwMetric "igw-1" "BytesInFromDestination" false (fun _ _ => [])
      0 86400).1 = [zeroSample "IGW" "igw-1" "BytesInFromDestination" 0] :=
  (c5_placeholder_policy "igw-1" "BytesInFromDestination" false
    (fun _ _ => []) 0 86400).1 rfl

/-- Claim C6, counterexample: a reversed interval (end before start) is not
rejected: the chunker returns the empty chunk list and the chunked fetch
returns no datapoints, silently treating the input as an empty window. -/
theorem c6_reversed_interval_cex :
    chunkIntervals 86400 0 = [] ∧
    getMetricDataChunked
      (fun a _ => [{ ts := a, sumStat := some 1, avgStat := none,
                     maxStat := none, minStat := none }]) 86400 0 = [] := by
  decide

/-- Claim C6, amended: an interval with end before start is silently
processed as an empty window: the chunking operation returns the empty
sequence of sub-intervals instead of an error. -/
theorem c6_reversed_interval_empty (s e : Int) (h : e < s) :
    chunkIntervals s e = [] :=
  chunkIntervals_degenerate s e (le_of_lt h)

/-- Claim C6, witness: the amended behaviour at a concrete reversed
interval. -/
theorem c6_reversed_interval_empty_witness : chunkIntervals 1 0 = [] :=
  c6_reversed_interval_empty 1 0 (by decide)

/-- Claim C7: a gateway whose table yields zero total periods gets idle
percentage 0 and both per-second rates 0, and the rate denominator is always
at least one, so the analysis never divides by zero. -/
theorem c7_no_div_by_zero (k : Bool) (gw : List MetricSample) :
    ((analyzeOne k gw).totalPeriodsF = 0 →
      (analyzeOne k gw).idlePercentage = 0 ∧
      (analyzeOne k gw).bytesPerSecondAvg = 0 ∧
      (analyzeOne k gw).packetsPerSecondAvg = 0) ∧
    1 ≤ secsFor (totalPeriods gw) := by
  constructor
  · intro h
    have hgw : gw = [] := (totalPeriods_eq_zero_iff gw).mp h
    subst hgw
    cases k <;> exact ⟨by decide, by decide, by decide⟩
  · exact one_le_secsFor _

/-- Claim C7, witness: the zero-period case at the empty table. -/
theorem c7_no_div_by_zero_witness :
    (analyzeOne false []).idlePercentage = 0 ∧
    (analyzeOne false []).bytesPerSecondAvg = 0 ∧
    (analyzeOne false []).packetsPerSecondAvg = 0 :=
  (c7_no_div_by_zero false []).1 rfl

/-- Claim C8: every summary satisfies Total_Bytes = bytes in plus bytes out
and Total_Packets = packets in plus packets out, and both per-second rates
are the two-decimal rounding of the total divided by
max(totalPeriods * 21600, 1). -/
theorem c8_totals_and_rates (k : Bool) (gw : List MetricSample) :
    (analyzeOne k gw).totalBytes =
      (analyzeOne k gw).totalBytesIn + (analyzeOne k gw).totalBytesOut ∧
    (analyzeOne k gw).totalPackets =
      (analyzeOne k gw).totalPacketsIn + (analyzeOne k gw).totalPacketsOut ∧
    (analyzeOne k gw).bytesPerSecondAvg =
      round2 ((analyzeOne k gw).totalBytes /
        max (((analyzeOne k gw).totalPeriodsF : ℚ) * periodSecondsQ) 1) ∧
    (analyzeOne k gw).packetsPerSecondAvg =
      round2 ((analyzeOne k gw).totalPackets /
        max (((analyzeOne k gw).totalPeriodsF : ℚ) * periodSecondsQ) 1) := by
  refine ⟨rfl, rfl, ?_, ?_⟩ <;>
    · rw [← secsFor_eq_max]
      rfl

/-- Claim C9: every summary produced from any input table has idle periods
bounded by total periods and an idle percentage between 0 and 100. -/
theorem c9_invariants (df : List MetricSample) (s9 : GatewaySummary)
    (h : s9 ∈ analyzeIdleTime df) :
    s9.idlePeriodsF ≤ s9.totalPeriodsF ∧
    0 ≤ s9.idlePercentage ∧ s9.idlePercentage ≤ 100 := by
  rw [analyzeIdleTime, List.mem_append] at h
  rcases h with h | h <;>
  · rw [List.mem_map] at h
    obtain ⟨gid, -, rfl⟩ := h
    refine ⟨idlePeriods_le_totalPeriods _ _, ?_, ?_⟩
    · exact round2_nonneg _ (idlePct_nonneg _ _)
    · exact round2_le_100 _
        (idlePct_le_100 _ _ (idlePeriods_le_totalPeriods _ _))

/-- Claim C9, witness: the invariants at a concrete one-gateway table. -/
theorem c9_invariants_witness :
    (analyzeOne true (restrict "NAT" "nat-1" exTableC9)).idlePeriodsF ≤
      (analyzeOne true (restrict "NAT" "nat-1" exTableC9)).totalPeriodsF ∧
    0 ≤ (analyzeOne true (restrict "NAT" "nat-1" exTableC9)).idlePercentage ∧
    (analyzeOne true (restrict "NAT" "nat-1" exTableC9)).idlePercentage ≤ 100 :=
  c9_invariants exTableC9 _ (by decide)

/-- Claim C10: an Internet Gateway none of whose catalog metrics has any
datapoint over the range still gets a summary row, with one period, one idle
period, idle percentage 100, all grouped byte, packet and drop sums zero,
zero rates and Inactive status. -/
theorem c10_all_missing_igw (gid : String) (probe : String → Bool)
    (fetch : String → Int → Int → List Datapoint) (s e : Int)
    (h : ∀ m ∈ IGW_METRICS, rawIgwDatapoints (probe m) (fetch m) s e = []) :
    analyzeIdleTime (collectIgwAll gid probe fetch s e) =
      [allZeroIgwSummary] := by
  rw [collectIgwAll_zero gid probe fetch s e h, analyzeIdleTime_zeroTable]

/-- Claim C10, witness: the all-missing IGW scenario at a concrete gateway
and a 90-day window. -/
theorem c10_all_missing_igw_witness :
    analyzeIdleTime
      (collectIgwAll "igw-1" (fun _ => false) (fun _ _ _ => []) 0 7776000) =
      [allZeroIgwSummary] :=
  c10_all_missing_igw "igw-1" (fun _ => false) (fun _ _ _ => []) 0 7776000
    (fun _ _ => rfl)

end IdleGW
